import Mathlib

/-
Verification of the Linux runner of the captioner application
(src/linux/runner/my_application.cc).

The runner is a GTK/Flutter bootstrap: a `MyApplication` object overriding
GApplication's `local_command_line`, `activate`, `startup`, `shutdown` and
GObject's `dispose`.  We embed each handler as a pure function over an
explicit environment `Env` that models the outcomes of the external
library calls the handler makes (g_file_read_link, g_file_test,
gdk_pixbuf_new_from_file, g_application_register), and record the
observable effects of a handler in a result structure.
-/

namespace Captioner

/-- Environment of external-call outcomes seen by the handlers.
  * `readLinkSelfExe` — result of `g_file_read_link("/proc/self/exe", nullptr)`
    (`none` models a `nullptr` return);
  * `dirname` — `g_path_get_dirname` (a GLib primitive, kept abstract);
  * `fileTestExists` — `g_file_test(path, G_FILE_TEST_EXISTS)`;
  * `pixbufNewFromFile` — `gdk_pixbuf_new_from_file(path, &error)`:
    `Except.ok ()` when a pixbuf is returned, `Except.error msg` when it
    returns null and fills `error->message`;
  * `registerResult` — `g_application_register(application, nullptr, &error)`:
    `Except.ok ()` on success, `Except.error msg` on failure. -/
structure Env where
  readLinkSelfExe : Option String
  dirname : String → String
  fileTestExists : String → Bool
  pixbufNewFromFile : String → Except String Unit
  registerResult : Except String Unit

/-- Model of GLib's `g_build_filename`: join path components with `/`. -/
def g_build_filename (parts : List String) : String :=
  String.intercalate "/" parts

/-- The bundled icon candidate,
`g_build_filename(exe_dir, "data", "captioner.png", nullptr)`. -/
def bundled_icon_path (exe_dir : String) : String :=
  g_build_filename [exe_dir, "data", "captioner.png"]

/-- The development-tree fallback icon candidate,
`g_build_filename(exe_dir, "..", "..", "..", "linux", "runner", "resources",
"app_icon.png", nullptr)`. -/
def dev_icon_path (exe_dir : String) : String :=
  g_build_filename [exe_dir, "..", "..", "..", "linux", "runner",
    "resources", "app_icon.png"]

/-- Icon path selection of `my_application_activate` (lines 35-46): use the
bundled path, and only if `g_file_test` says it does not exist, switch to
the development fallback. -/
def resolve_icon_path (fileTestExists : String → Bool) (exe_dir : String) :
    String :=
  if fileTestExists (bundled_icon_path exe_dir) then bundled_icon_path exe_dir
  else dev_icon_path exe_dir

/-- A GdkRGBA color, channels as rationals in [0,1] (the C struct holds
doubles). -/
structure RGBA where
  red : ℚ
  green : ℚ
  blue : ℚ
  alpha : ℚ
  deriving DecidableEq

/-- Value of one hexadecimal digit character. -/
def hexDigitVal (c : Char) : Option Nat :=
  if '0' ≤ c ∧ c ≤ '9' then some (c.toNat - '0'.toNat)
  else if 'a' ≤ c ∧ c ≤ 'f' then some (c.toNat - 'a'.toNat + 10)
  else if 'A' ≤ c ∧ c ≤ 'F' then some (c.toNat - 'A'.toNat + 10)
  else none

/-- Value of a two-hex-digit byte. -/
def parseHexByte (c1 c2 : Char) : Option Nat := do
  let h ← hexDigitVal c1
  let l ← hexDigitVal c2
  pure (16 * h + l)

/-- Model of GDK's `gdk_rgba_parse` for the `#RRGGBB` and `#RRGGBBAA` hex
forms (the forms the runner's comment mentions; the runner only ever passes
"#000000").  Channels are scaled to [0,1]; the six-digit form has alpha 1. -/
def gdk_rgba_parse (spec : String) : Option RGBA :=
  match spec.data with
  | '#' :: [r1, r2, g1, g2, b1, b2] => do
      let r ← parseHexByte r1 r2
      let g ← parseHexByte g1 g2
      let b ← parseHexByte b1 b2
      pure ⟨(r : ℚ) / 255, (g : ℚ) / 255, (b : ℚ) / 255, 1⟩
  | '#' :: [r1, r2, g1, g2, b1, b2, a1, a2] => do
      let r ← parseHexByte r1 r2
      let g ← parseHexByte g1 g2
      let b ← parseHexByte b1 b2
      let a ← parseHexByte a1 a2
      pure ⟨(r : ℚ) / 255, (g : ℚ) / 255, (b : ℚ) / 255, (a : ℚ) / 255⟩
  | _ => none

/-- Observable effects of one run of `my_application_activate`. -/
structure ActivateResult where
  /-- Title given to the new application window (`gtk_window_set_title`). -/
  windowTitle : String
  /-- Width passed to `gtk_window_set_default_size`. -/
  windowDefaultWidth : Nat
  /-- Height passed to `gtk_window_set_default_size`. -/
  windowDefaultHeight : Nat
  /-- The path handed to `gdk_pixbuf_new_from_file`, when the icon block
  runs at all. -/
  iconPathConsulted : Option String
  /-- The path whose pixbuf was set with `gtk_window_set_icon`, if any. -/
  iconSet : Option String
  /-- The `g_warning` message emitted on icon-load failure, if any. -/
  iconWarning : Option String
  /-- Argument vector given to
  `fl_dart_project_set_dart_entrypoint_arguments` (the raw stored pointer,
  `none` when it is still null). -/
  projectArgs : Option (List String)
  /-- Color passed to `fl_view_set_background_color`, as written by
  `gdk_rgba_parse`. -/
  viewBackgroundColor : Option RGBA
  /-- Whether `gtk_widget_show` was called on the view. -/
  viewShown : Bool
  /-- Whether the view was added to the window (`gtk_container_add`). -/
  viewAddedToWindow : Bool
  /-- Whether `first_frame_cb` was connected to the view's "first-frame"
  signal (`g_signal_connect_swapped`). -/
  firstFrameConnected : Bool
  /-- Whether `gtk_widget_realize` was called on the view. -/
  viewRealized : Bool
  /-- Whether `fl_register_plugins` was called. -/
  pluginsRegistered : Bool
  /-- Whether `gtk_widget_grab_focus` was called on the view. -/
  focusGrabbed : Bool
  /-- Whether activation itself showed the top-level window (it never
  does: the window is only shown by `first_frame_cb`). -/
  windowShownByActivate : Bool
  deriving DecidableEq

/-- Shallow embedding of `my_application_activate` (lines 20-81).
`dart_entrypoint_arguments` is the object's stored argument pointer
(`none` models a null `char **`). -/
def my_application_activate (env : Env)
    (dart_entrypoint_arguments : Option (List String)) : ActivateResult :=
  let iconOutcome : Option String × Option String × Option String :=
    match env.readLinkSelfExe with
    | none => (none, none, none)
    | some exe_path =>
      let exe_dir := env.dirname exe_path
      let icon_path := resolve_icon_path env.fileTestExists exe_dir
      match env.pixbufNewFromFile icon_path with
      | Except.ok _ => (some icon_path, some icon_path, none)
      | Except.error msg =>
          (some icon_path, none,
           some ("Failed to load window icon from " ++ icon_path ++ ": "
             ++ msg))
  { windowTitle := "Captioner"
    windowDefaultWidth := 1280
    windowDefaultHeight := 720
    iconPathConsulted := iconOutcome.1
    iconSet := iconOutcome.2.1
    iconWarning := iconOutcome.2.2
    projectArgs := dart_entrypoint_arguments
    viewBackgroundColor := gdk_rgba_parse "#000000"
    viewShown := true
    viewAddedToWindow := true
    firstFrameConnected := true
    viewRealized := true
    pluginsRegistered := true
    focusGrabbed := true
    windowShownByActivate := false }

/-- Observable effects of one run of `my_application_local_command_line`. -/
structure LocalCommandLineResult where
  /-- The stored `dart_entrypoint_arguments` after the handler ran. -/
  dart_entrypoint_arguments : Option (List String)
  /-- The `g_warning` message emitted on registration failure, if any. -/
  warning : Option String
  /-- The value written to `*exit_status`. -/
  exitStatus : Int
  /-- Whether `g_application_activate` was called. -/
  activated : Bool
  /-- The handler's return value (`TRUE` means the command line was
  consumed locally). -/
  handled : Bool
  deriving DecidableEq

/-- Shallow embedding of `my_application_local_command_line`
(lines 84-102).  `arguments` is the received argument vector; the handler
first stores `g_strdupv(*arguments + 1)` — everything after the binary
name — then registers, and either warns and exits 1 or activates and
exits 0, returning TRUE in both cases. -/
def my_application_local_command_line (env : Env)
    (arguments : List String) : LocalCommandLineResult :=
  let stored := arguments.drop 1
  match env.registerResult with
  | Except.error msg =>
      { dart_entrypoint_arguments := some stored
        warning := some ("Failed to register: " ++ msg)
        exitStatus := 1
        activated := false
        handled := true }
  | Except.ok _ =>
      { dart_entrypoint_arguments := some stored
        warning := none
        exitStatus := 0
        activated := true
        handled := true }

/-- Shallow embedding of `my_application_dispose` (lines 123-127):
`g_clear_pointer(&self->dart_entrypoint_arguments, g_strfreev)` frees the
vector when the pointer is non-null and sets the pointer to null.
Returns the new pointer value and whether `g_strfreev` was invoked. -/
def my_application_dispose (dart_entrypoint_arguments : Option (List String)) :
    Option (List String) × Bool :=
  (none, dart_entrypoint_arguments.isSome)

/-- The lifecycle operations of the application object that the runner
overrides (plus those it leaves as pure parent-chaining). -/
inductive AppOp where
  | localCommandLine (arguments : List String)
  | activate
  | startup
  | shutdown
  | dispose

/-- Effect of each lifecycle operation on the object's only piece of
state, the stored `dart_entrypoint_arguments` pointer.
`my_application_activate` only reads the pointer; `my_application_startup`
and `my_application_shutdown` merely chain to the parent class. -/
def appStep : AppOp → Option (List String) → Option (List String)
  | AppOp.localCommandLine arguments, _ => some (arguments.drop 1)
  | AppOp.activate, s => s
  | AppOp.startup, s => s
  | AppOp.shutdown, s => s
  | AppOp.dispose, s => (my_application_dispose s).1

/-- `first_frame_cb` (lines 15-17): shows the view's top-level window.
The state is whether the window is shown. -/
def first_frame_cb (_windowShown : Bool) : Bool :=
  true

/-- One emission of the view's "first-frame" signal: when the handler is
connected, GTK invokes `first_frame_cb` (swapped) once.  State is
(window shown, number of times the callback has run). -/
def emitFirstFrame (handlerConnected : Bool) (st : Bool × Nat) :
    Bool × Nat :=
  if handlerConnected then (first_frame_cb st.1, st.2 + 1) else st

/-- `n` successive emissions of the "first-frame" signal. -/
def emitFirstFrameN : Nat → Bool → Bool × Nat → Bool × Nat
  | 0, _, st => st
  | n + 1, h, st => emitFirstFrameN n h (emitFirstFrame h st)

end Captioner

namespace Captioner

/-- C1: the local command-line handler stores exactly the arguments after
the first (the binary path), unchanged and in order, and activation passes
that same stored list as the Dart project's entrypoint arguments. -/
theorem arguments_stored_and_forwarded (envL envA : Env)
    (arguments : List String) :
    (my_application_local_command_line envL
        arguments).dart_entrypoint_arguments = some (arguments.drop 1)
    ∧ (my_application_activate envA
        ((my_application_local_command_line envL
          arguments).dart_entrypoint_arguments)).projectArgs
      = some (arguments.drop 1) := by
  cases h : envL.registerResult <;>
    simp [my_application_local_command_line, my_application_activate, h]

/-- C2: the handler reports the command line as handled in every case;
the exit status written is 1 exactly when registration fails (in which
case a warning is logged and activation is skipped) and 0 otherwise (in
which case activation is triggered and no warning is logged). -/
theorem local_command_line_exit_status (env : Env)
    (arguments : List String) :
    (my_application_local_command_line env arguments).handled = true
    ∧ (my_application_local_command_line env arguments).exitStatus
      = (match env.registerResult with
         | Except.ok _ => 0
         | Except.error _ => 1)
    ∧ (my_application_local_command_line env arguments).activated
      = (match env.registerResult with
         | Except.ok _ => true
         | Except.error _ => false)
    ∧ (my_application_local_command_line env arguments).warning
      = (match env.registerResult with
         | Except.ok _ => none
         | Except.error msg => some ("Failed to register: " ++ msg)) := by
  cases h : env.registerResult <;>
    simp [my_application_local_command_line, h]

/-- C3: when the executable path resolves, the path consulted for the
icon is the bundled `data/captioner.png` next to the executable if a file
exists there, and otherwise the development fallback
`../../../linux/runner/resources/app_icon.png`; no other path is ever
consulted. -/
theorem icon_path_resolution (env : Env) (args : Option (List String))
    (p : String) (h : env.readLinkSelfExe = some p) :
    (my_application_activate env args).iconPathConsulted
      = some (if env.fileTestExists (bundled_icon_path (env.dirname p))
              then bundled_icon_path (env.dirname p)
              else dev_icon_path (env.dirname p)) := by
  have key : (my_application_activate env args).iconPathConsulted
      = some (resolve_icon_path env.fileTestExists (env.dirname p)) := by
    cases hl : env.pixbufNewFromFile
        (resolve_icon_path env.fileTestExists (env.dirname p)) <;>
      simp [my_application_activate, h, hl]
  rw [key]
  rfl

/-- Witness for C3 at a concrete environment whose executable resolves to
"/opt/app/captioner" and whose bundled icon exists. -/
theorem icon_path_resolution_witness :
    (my_application_activate
      { readLinkSelfExe := some "/opt/app/captioner"
        dirname := fun _ => "/opt/app"
        fileTestExists := fun _ => true
        pixbufNewFromFile := fun _ => Except.ok ()
        registerResult := Except.ok () } none).iconPathConsulted
      = some (if (fun _ => true : String → Bool)
              (bundled_icon_path ((fun _ => "/opt/app") "/opt/app/captioner"))
              then bundled_icon_path ((fun _ => "/opt/app") "/opt/app/captioner")
              else dev_icon_path ((fun _ => "/opt/app") "/opt/app/captioner")) :=
  icon_path_resolution
    { readLinkSelfExe := some "/opt/app/captioner"
      dirname := fun _ => "/opt/app"
      fileTestExists := fun _ => true
      pixbufNewFromFile := fun _ => Except.ok ()
      registerResult := Except.ok () } none "/opt/app/captioner" rfl

/-- C4: icon-load failure is the only error activation handles: a warning
is logged exactly when the executable resolves and loading the consulted
icon fails, the icon is set exactly when the executable resolves and the
load succeeds, and every other effect of activation (arguments forwarded,
view shown/added/realized, first-frame handler connected, plugins
registered, focus grabbed, title and size) is a constant independent of
the icon outcome. -/
theorem icon_failure_nonfatal (env : Env) (args : Option (List String)) :
    (my_application_activate env args).projectArgs = args
    ∧ (my_application_activate env args).viewShown = true
    ∧ (my_application_activate env args).viewAddedToWindow = true
    ∧ (my_application_activate env args).firstFrameConnected = true
    ∧ (my_application_activate env args).viewRealized = true
    ∧ (my_application_activate env args).pluginsRegistered = true
    ∧ (my_application_activate env args).focusGrabbed = true
    ∧ (my_application_activate env args).windowTitle = "Captioner"
    ∧ (my_application_activate env args).windowDefaultWidth = 1280
    ∧ (my_application_activate env args).windowDefaultHeight = 720
    ∧ (my_application_activate env args).iconWarning.isSome
      = (match env.readLinkSelfExe with
         | none => false
         | some p =>
           match env.pixbufNewFromFile
               (resolve_icon_path env.fileTestExists (env.dirname p)) with
           | Except.ok _ => false
           | Except.error _ => true)
    ∧ (my_application_activate env args).iconSet.isSome
      = (match env.readLinkSelfExe with
         | none => false
         | some p =>
           match env.pixbufNewFromFile
               (resolve_icon_path env.fileTestExists (env.dirname p)) with
           | Except.ok _ => true
           | Except.error _ => false) := by
  cases hr : env.readLinkSelfExe with
  | none => simp [my_application_activate, hr]
  | some p =>
    cases hl : env.pixbufNewFromFile
        (resolve_icon_path env.fileTestExists (env.dirname p)) <;>
      simp [my_application_activate, hr, hl]

/-- C5: the stored argument list is written only by the command-line
handler (to the tail of the received vector) and cleared only by dispose;
activation, startup and shutdown leave it unchanged. -/
theorem arguments_lifecycle (s : Option (List String)) :
    appStep AppOp.activate s = s
    ∧ appStep AppOp.startup s = s
    ∧ appStep AppOp.shutdown s = s
    ∧ appStep AppOp.dispose s = none
    ∧ ∀ arguments,
        appStep (AppOp.localCommandLine arguments) s
          = some (arguments.drop 1) := by
  refine ⟨rfl, rfl, rfl, rfl, fun arguments => rfl⟩

/-- C6: activation connects `first_frame_cb` to the view's "first-frame"
signal and does not itself show the top-level window; after the signal is
emitted the window is shown, and as long as the engine emits "first-frame"
at most once (its documented behaviour — it marks the first rendered
frame), the reveal callback runs at most once. -/
theorem first_frame_reveal (env : Env) (args : Option (List String))
    (n : Nat) (h : n ≤ 1) :
    (my_application_activate env args).firstFrameConnected = true
    ∧ (my_application_activate env args).windowShownByActivate = false
    ∧ (emitFirstFrameN n
        (my_application_activate env args).firstFrameConnected
        ((my_application_activate env args).windowShownByActivate, 0)).1
      = decide (1 ≤ n)
    ∧ (emitFirstFrameN n
        (my_application_activate env args).firstFrameConnected
        ((my_application_activate env args).windowShownByActivate, 0)).2
      ≤ 1 := by
  have hc : (my_application_activate env args).firstFrameConnected = true :=
    rfl
  have hw : (my_application_activate env args).windowShownByActivate
      = false := rfl
  refine ⟨hc, hw, ?_, ?_⟩ <;>
    · rw [hc, hw]
      interval_cases n <;>
        simp [emitFirstFrameN, emitFirstFrame, first_frame_cb]

/-- Witness for C6: one emission of "first-frame" in the environment
where everything succeeds reveals the window with exactly one callback
run. -/
theorem first_frame_reveal_witness :
    (my_application_activate
      { readLinkSelfExe := none
        dirname := fun _ => ""
        fileTestExists := fun _ => false
        pixbufNewFromFile := fun _ => Except.ok ()
        registerResult := Except.ok () } none).firstFrameConnected = true
    ∧ (my_application_activate
      { readLinkSelfExe := none
        dirname := fun _ => ""
        fileTestExists := fun _ => false
        pixbufNewFromFile := fun _ => Except.ok ()
        registerResult := Except.ok () } none).windowShownByActivate = false
    ∧ (emitFirstFrameN 1
        (my_application_activate
          { readLinkSelfExe := none
            dirname := fun _ => ""
            fileTestExists := fun _ => false
            pixbufNewFromFile := fun _ => Except.ok ()
            registerResult := Except.ok () } none).firstFrameConnected
        ((my_application_activate
          { readLinkSelfExe := none
            dirname := fun _ => ""
            fileTestExists := fun _ => false
            pixbufNewFromFile := fun _ => Except.ok ()
            registerResult := Except.ok () } none).windowShownByActivate,
         0)).1 = decide (1 ≤ 1)
    ∧ (emitFirstFrameN 1
        (my_application_activate
          { readLinkSelfExe := none
            dirname := fun _ => ""
            fileTestExists := fun _ => false
            pixbufNewFromFile := fun _ => Except.ok ()
            registerResult := Except.ok () } none).firstFrameConnected
        ((my_application_activate
          { readLinkSelfExe := none
            dirname := fun _ => ""
            fileTestExists := fun _ => false
            pixbufNewFromFile := fun _ => Except.ok ()
            registerResult := Except.ok () } none).windowShownByActivate,
         0)).2 ≤ 1 :=
  first_frame_reveal
    { readLinkSelfExe := none
      dirname := fun _ => ""
      fileTestExists := fun _ => false
      pixbufNewFromFile := fun _ => Except.ok ()
      registerResult := Except.ok () } none 1 (by decide)

/-- C7: on every activation, whatever the environment and stored
arguments, the view's background color is the parse of "#000000": opaque
black (red = green = blue = 0, alpha = 1). -/
theorem view_background_opaque_black (env : Env)
    (args : Option (List String)) :
    (my_application_activate env args).viewBackgroundColor
      = some ⟨0, 0, 0, 1⟩ := by
  show gdk_rgba_parse "#000000" = some ⟨0, 0, 0, 1⟩
  have hd : "#000000".data = ['#', '0', '0', '0', '0', '0', '0'] := rfl
  have hb : parseHexByte '0' '0' = some 0 := by decide
  simp [gdk_rgba_parse, hd, hb]

/-- C8: when the executable path cannot be read, the entire icon block is
skipped silently — no path is consulted, no icon is set, no warning is
logged — while the rest of activation proceeds normally. -/
theorem unresolvable_exe_skips_icon (env : Env)
    (args : Option (List String)) (h : env.readLinkSelfExe = none) :
    (my_application_activate env args).iconPathConsulted = none
    ∧ (my_application_activate env args).iconSet = none
    ∧ (my_application_activate env args).iconWarning = none
    ∧ (my_application_activate env args).projectArgs = args
    ∧ (my_application_activate env args).viewShown = true
    ∧ (my_application_activate env args).firstFrameConnected = true
    ∧ (my_application_activate env args).viewRealized = true
    ∧ (my_application_activate env args).pluginsRegistered = true
    ∧ (my_application_activate env args).focusGrabbed = true := by
  simp [my_application_activate, h]

/-- Witness for C8 at a concrete environment whose /proc/self/exe link
does not resolve. -/
theorem unresolvable_exe_skips_icon_witness :
    (my_application_activate
      { readLinkSelfExe := none
        dirname := fun _ => ""
        fileTestExists := fun _ => true
        pixbufNewFromFile := fun _ => Except.error "no file"
        registerResult := Except.ok () }
      (some ["a"])).iconPathConsulted = none
    ∧ (my_application_activate
      { readLinkSelfExe := none
        dirname := fun _ => ""
        fileTestExists := fun _ => true
        pixbufNewFromFile := fun _ => Except.error "no file"
        registerResult := Except.ok () } (some ["a"])).iconSet = none
    ∧ (my_application_activate
      { readLinkSelfExe := none
        dirname := fun _ => ""
        fileTestExists := fun _ => true
        pixbufNewFromFile := fun _ => Except.error "no file"
        registerResult := Except.ok () } (some ["a"])).iconWarning = none
    ∧ (my_application_activate
      { readLinkSelfExe := none
        dirname := fun _ => ""
        fileTestExists := fun _ => true
        pixbufNewFromFile := fun _ => Except.error "no file"
        registerResult := Except.ok () } (some ["a"])).projectArgs
      = some ["a"]
    ∧ (my_application_activate
      { readLinkSelfExe := none
        dirname := fun _ => ""
        fileTestExists := fun _ => true
        pixbufNewFromFile := fun _ => Except.error "no file"
        registerResult := Except.ok () } (some ["a"])).viewShown = true
    ∧ (my_application_activate
      { readLinkSelfExe := none
        dirname := fun _ => ""
        fileTestExists := fun _ => true
        pixbufNewFromFile := fun _ => Except.error "no file"
        registerResult := Except.ok () }
      (some ["a"])).firstFrameConnected = true
    ∧ (my_application_activate
      { readLinkSelfExe := none
        dirname := fun _ => ""
        fileTestExists := fun _ => true
        pixbufNewFromFile := fun _ => Except.error "no file"
        registerResult := Except.ok () } (some ["a"])).viewRealized = true
    ∧ (my_application_activate
      { readLinkSelfExe := none
        dirname := fun _ => ""
        fileTestExists := fun _ => true
        pixbufNewFromFile := fun _ => Except.error "no file"
        registerResult := Except.ok () } (some ["a"])).pluginsRegistered
      = true
    ∧ (my_application_activate
      { readLinkSelfExe := none
        dirname := fun _ => ""
        fileTestExists := fun _ => true
        pixbufNewFromFile := fun _ => Except.error "no file"
        registerResult := Except.ok () } (some ["a"])).focusGrabbed
      = true :=
  unresolvable_exe_skips_icon
    { readLinkSelfExe := none
      dirname := fun _ => ""
      fileTestExists := fun _ => true
      pixbufNewFromFile := fun _ => Except.error "no file"
      registerResult := Except.ok () } (some ["a"]) rfl

/-- C9: the local command-line handler returns TRUE for every input: the
command line is always consumed locally, whether or not registration
succeeds. -/
theorem local_command_line_always_handled (env : Env)
    (arguments : List String) :
    (my_application_local_command_line env arguments).handled = true := by
  cases h : env.registerResult <;>
    simp [my_application_local_command_line, h]

/-- C10: dispose is idempotent on the object's state: the first dispose
nulls the stored argument pointer (freeing the vector exactly when one
was stored), and a second dispose of the already-nulled pointer leaves it
null and frees nothing. -/
theorem dispose_idempotent (s : Option (List String)) :
    (my_application_dispose s).1 = none
    ∧ (my_application_dispose s).2 = s.isSome
    ∧ my_application_dispose (my_application_dispose s).1
      = (none, false) := by
  refine ⟨rfl, rfl, rfl⟩

end Captioner
